import Mathlib

/-!
Verification development for the restaurant loyalty-program backend.

The definitions below are a shallow embedding of the repository's
TypeScript service layer and SQL trigger functions:

* `Loyalty` — the points/tier accrual rule (`CustomerService.addPoints`),
  the store-side trigger (`update_customer_stats` in the migrations), the
  reward-redemption validator (`RewardService.redeemReward`), and customer
  creation (`CustomerService.createCustomer`).
* `Auth` — the identity-resolution / tenant-bootstrap flow
  (`fetchStaffData` and `createRestaurantAndStaff` in `AuthContext.tsx`).

The remote store is modelled as explicit record state (lists of rows);
each service method becomes a pure state-passing function.  JavaScript
`Math.round` and PostgreSQL `ROUND` are modelled exactly on `ℚ`; monetary
amounts and point counts are integers, as every value the services ever
write to them is.
-/

namespace Loyalty

/-- Customer loyalty tiers, ordered bronze < silver < gold. -/
inductive Tier
  | bronze
  | silver
  | gold
deriving DecidableEq, Repr

/-- Tier rank as in `rewardService.ts`: `tierOrder = { bronze: 0, silver: 1, gold: 2 }`. -/
def tierOrder : Tier → Nat
  | .bronze => 0
  | .silver => 1
  | .gold => 2

/-- Tier name as stored in the database rows. -/
def tierName : Tier → String
  | .bronze => "bronze"
  | .silver => "silver"
  | .gold => "gold"

/-- JavaScript `Math.round`: round half toward positive infinity. -/
def jsRound (q : ℚ) : ℤ := Int.floor (q + 1/2)

/-- PostgreSQL `ROUND` on `numeric`: round half away from zero
(for negative arguments `⌈q - 1/2⌉`, written `-⌊1/2 - q⌋`). -/
def sqlRound (q : ℚ) : ℤ := if 0 ≤ q then Int.floor (q + 1/2) else -Int.floor (1/2 - q)

theorem jsRound_eq (q : ℚ) (z : ℤ) (h1 : (z : ℚ) ≤ q + 1/2) (h2 : q + 1/2 < z + 1) :
    jsRound q = z :=
  Int.floor_eq_iff.2 ⟨h1, h2⟩

theorem sqlRound_eq_of_nonneg (q : ℚ) (z : ℤ) (hq : 0 ≤ q) (h1 : (z : ℚ) ≤ q + 1/2)
    (h2 : q + 1/2 < z + 1) : sqlRound q = z := by
  unfold sqlRound
  rw [if_pos hq]
  exact Int.floor_eq_iff.2 ⟨h1, h2⟩

theorem jsRound_nonneg (q : ℚ) (hq : 0 ≤ q) : 0 ≤ jsRound q :=
  Int.le_floor.2 (by push_cast; linarith)

/-- Tier from new lifetime points, as computed in `CustomerService.addPoints`
(thresholds 1000 for gold, 500 for silver, else bronze). -/
def appTier (newLifetimePoints : ℤ) : Tier :=
  if newLifetimePoints ≥ 1000 then .gold
  else if newLifetimePoints ≥ 500 then .silver
  else .bronze

/-- The raw `tierProgress` value computed in `CustomerService.addPoints`
before the final `Math.min(tierProgress, 100)`. -/
def appTierProgressRaw (newLifetimePoints : ℤ) : ℤ :=
  if newLifetimePoints ≥ 1000 then 100
  else if newLifetimePoints ≥ 500 then
    jsRound (((newLifetimePoints : ℚ) - 500) / 500 * 100)
  else
    jsRound ((newLifetimePoints : ℚ) / 500 * 100)

/-- The `tier_progress` value `CustomerService.addPoints` stores:
`Math.min(tierProgress, 100)`. -/
def appTierProgress (newLifetimePoints : ℤ) : ℤ :=
  min (appTierProgressRaw newLifetimePoints) 100

/-- `calculate_customer_tier` from the SQL migrations. -/
def calculate_customer_tier (customer_points : ℤ) : Tier :=
  if customer_points ≥ 1000 then .gold
  else if customer_points ≥ 500 then .silver
  else .bronze

/-- `tier_progress` as the `update_customer_stats` trigger
(snowy_garden migration, and its copy in the multi-tenant setup migration)
computes it.  The bronze branch transcribes the source exactly:
`ROUND((lifetime_points + NEW.points / 500.0) * 100)` — the division binds
tighter than the addition there, unlike in the silver branch. -/
def triggerTierProgress (lifetime_points points : ℤ) : ℤ :=
  if lifetime_points + points ≥ 1000 then 100
  else if lifetime_points + points ≥ 500 then
    sqlRound (((lifetime_points : ℚ) + (points : ℚ) - 500) / 500 * 100)
  else
    sqlRound (((lifetime_points : ℚ) + (points : ℚ) / 500) * 100)

/-- The accrual rule exactly as the specification words it (§4.2): progress is
100 for gold, otherwise the rounded percentage clamped to [0,100].  This
definition follows the spec's words and serves only as the comparison target
for the agreement claim between the application layer and the store trigger. -/
def specTierProgress (lifetime_points : ℤ) : ℤ :=
  if lifetime_points ≥ 1000 then 100
  else if lifetime_points ≥ 500 then
    max 0 (min (jsRound (((lifetime_points : ℚ) - 500) / 500 * 100)) 100)
  else
    max 0 (min (jsRound ((lifetime_points : ℚ) / 500 * 100)) 100)

/-- A `customers` row (the fields the service layer reads and writes). -/
structure Customer where
  id : String
  restaurant_id : String
  first_name : String
  last_name : String
  email : String
  phone : Option String
  total_points : ℤ
  lifetime_points : ℤ
  current_tier : Tier
  tier_progress : ℤ
  visit_count : ℤ
  total_spent : ℤ
  last_visit : Option Nat
  is_active : Bool
deriving DecidableEq, Repr

/-- The pure row update `CustomerService.addPoints` performs on the customer:
new totals, tier and progress, spending and visit counters.  `amountSpent`
follows the source's JavaScript truthiness (`amountSpent || 0`,
`amountSpent ? 1 : 0`): an absent or zero amount adds nothing and counts no
visit. -/
def addPointsUpdate (c : Customer) (points : ℤ) (amountSpent : Option ℤ) (now : Nat) :
    Customer :=
  let newLifetimePoints := c.lifetime_points + points
  { c with
    total_points := c.total_points + points
    lifetime_points := newLifetimePoints
    current_tier := appTier newLifetimePoints
    tier_progress := appTierProgress newLifetimePoints
    total_spent := c.total_spent + (match amountSpent with | some a => a | none => 0)
    visit_count := c.visit_count +
      (match amountSpent with | some a => if a = 0 then 0 else 1 | none => 0)
    last_visit := some now }

theorem appTierProgressRaw_nonneg {nlp : ℤ} (h : 0 ≤ nlp) : 0 ≤ appTierProgressRaw nlp := by
  unfold appTierProgressRaw
  split
  · norm_num
  · split
    · next h2 =>
      apply jsRound_nonneg
      have h500 : (500 : ℚ) ≤ (nlp : ℚ) := by exact_mod_cast h2
      nlinarith
    · apply jsRound_nonneg
      have h0 : (0 : ℚ) ≤ (nlp : ℚ) := by exact_mod_cast h
      positivity

/-- A `rewards` row (the fields `redeemReward` reads and writes). -/
structure Reward where
  id : String
  restaurant_id : String
  name : String
  points_required : ℤ
  min_tier : Tier
  total_available : Option ℤ
  total_redeemed : ℤ
  is_active : Bool
deriving DecidableEq, Repr

/-- A `redemptions` row as `redeemReward` inserts it. -/
structure Redemption where
  restaurant_id : String
  customer_id : String
  reward_id : String
  points_used : ℤ
  status : String
deriving DecidableEq, Repr

/-- A `transactions` row as the customer service inserts it. -/
structure TransactionRow where
  restaurant_id : String
  customer_id : String
  type : String
  points : ℤ
  amount_spent : Option ℤ
  description : String
deriving DecidableEq, Repr

/-- A `notifications` row. -/
structure Notification where
  restaurant_id : String
  title : String
  message : String
  type : String
deriving DecidableEq, Repr

/-- The tables the customer and reward services read and write.  `nextId`
stands for the store's row-id generator. -/
structure Store where
  nextId : Nat
  customers : List Customer
  rewards : List Reward
  redemptions : List Redemption
  transactions : List TransactionRow
  notifications : List Notification
deriving DecidableEq, Repr

/-- The errors `RewardService.redeemReward` throws, in source order. -/
inductive RedeemError
  | customerNotFound
  | rewardNotFound
  | insufficientPoints
  | tierTooLow (minTier : Tier)
  | unavailable
deriving DecidableEq, Repr

/-- The exact message of each `redeemReward` error in the source. -/
def errorMessage : RedeemError → String
  | .customerNotFound => "Customer not found in your restaurant"
  | .rewardNotFound => "Reward not found in your restaurant"
  | .insufficientPoints => "Insufficient points"
  | .tierTooLow t => "Requires " ++ tierName t ++ " tier or higher"
  | .unavailable => "Reward is no longer available"

/-- `from('customers').select('*').eq('id', customerId).eq('restaurant_id', restaurantId)`. -/
def findCustomer (s : Store) (restaurantId customerId : String) : Option Customer :=
  s.customers.find? fun c => decide (c.id = customerId ∧ c.restaurant_id = restaurantId)

/-- `from('rewards').select('*').eq('id', rewardId).eq('restaurant_id', restaurantId)`. -/
def findReward (s : Store) (restaurantId rewardId : String) : Option Reward :=
  s.rewards.find? fun r => decide (r.id = rewardId ∧ r.restaurant_id = restaurantId)

/-- The capacity guard in `redeemReward`:
`reward.total_available && reward.total_redeemed >= reward.total_available`.
JavaScript truthiness makes a null or zero `total_available` skip the check. -/
def availabilityBlocked (r : Reward) : Bool :=
  match r.total_available with
  | some n => decide (n ≠ 0 ∧ n ≤ r.total_redeemed)
  | none => false

/-- The customer-points write in `redeemReward`:
`update({total_points: customer.total_points - reward.points_required})
.eq('id', customerId).eq('restaurant_id', restaurantId)`. -/
def chargeCustomer (customerId restaurantId : String) (newTotal : ℤ) (l : List Customer) :
    List Customer :=
  l.map fun c =>
    if decide (c.id = customerId ∧ c.restaurant_id = restaurantId) then
      { c with total_points := newTotal }
    else c

/-- The reward-counter write in `redeemReward`:
`update({total_redeemed: reward.total_redeemed + 1})
.eq('id', rewardId).eq('restaurant_id', restaurantId)`. -/
def bumpRewardCount (rewardId restaurantId : String) (newCount : ℤ) (l : List Reward) :
    List Reward :=
  l.map fun r =>
    if decide (r.id = rewardId ∧ r.restaurant_id = restaurantId) then
      { r with total_redeemed := newCount }
    else r

/-- `RewardService.redeemReward`: validation in source order, then the
sequential writes (redemption insert, customer points decrement, reward
counter increment, notification insert).  The returned store reflects every
write performed before the method returns or throws. -/
def redeemReward (restaurantId customerId rewardId : String) (s : Store) :
    Store × Except RedeemError Redemption :=
  match findCustomer s restaurantId customerId with
  | none => (s, .error .customerNotFound)
  | some customer =>
    match findReward s restaurantId rewardId with
    | none => (s, .error .rewardNotFound)
    | some reward =>
      if customer.total_points < reward.points_required then
        (s, .error .insufficientPoints)
      else if tierOrder customer.current_tier < tierOrder reward.min_tier then
        (s, .error (.tierTooLow reward.min_tier))
      else if availabilityBlocked reward then
        (s, .error .unavailable)
      else
        let redemption : Redemption :=
          { restaurant_id := restaurantId, customer_id := customerId, reward_id := rewardId,
            points_used := reward.points_required, status := "pending" }
        ({ s with
            redemptions := s.redemptions ++ [redemption],
            customers := chargeCustomer customerId restaurantId
              (customer.total_points - reward.points_required) s.customers,
            rewards := bumpRewardCount rewardId restaurantId
              (reward.total_redeemed + 1) s.rewards,
            notifications := s.notifications ++
              [{ restaurant_id := restaurantId, title := "Reward Redeemed",
                 message := customer.first_name ++ " " ++ customer.last_name ++ " redeemed "
                   ++ reward.name, type := "info" }] },
         .ok redemption)

/-- Concrete customer row used by the accrual counterexample and witness. -/
def customerC9 : Customer :=
  { id := "cust-9", restaurant_id := "rest-1", first_name := "Ada", last_name := "L",
    email := "ada@example.test", phone := none, total_points := 50, lifetime_points := 0,
    current_tier := .bronze, tier_progress := 0, visit_count := 0, total_spent := 0,
    last_visit := none, is_active := true }

/-- C1: the claim says the application layer and the store trigger apply the
same tier/progress computation everywhere lifetime_points changes.  They do
not: for a customer at lifetime_points 100 accruing 100 points, the trigger's
bronze branch — `ROUND((lifetime_points + NEW.points / 500.0) * 100)`, with
the division binding tighter than the addition — yields 10020, while the
application layer and the spec's formula both yield 40.  The spec's
parenthesised formula is clearly the intent; the trigger's bronze branch is a
precedence slip, so the code is wrong, not the claim. -/
theorem trigger_bronze_progress_bug :
    triggerTierProgress 100 100 = 10020 ∧ appTierProgress 200 = 40 ∧
      specTierProgress 200 = 40 ∧ triggerTierProgress 100 100 ≠ appTierProgress 200 := by
  have hsql : sqlRound ((10020 : ℚ)) = 10020 := by
    unfold sqlRound
    rw [if_pos (by norm_num)]
    exact Int.floor_eq_iff.2 ⟨by norm_num, by norm_num⟩
  have hjs : jsRound ((40 : ℚ)) = 40 := jsRound_eq _ _ (by norm_num) (by norm_num)
  have h1 : triggerTierProgress 100 100 = 10020 := by
    norm_num [triggerTierProgress, hsql]
  have h2 : appTierProgress 200 = 40 := by
    norm_num [appTierProgress, appTierProgressRaw, hjs]
  have h3 : specTierProgress 200 = 40 := by
    norm_num [specTierProgress, hjs]
  exact ⟨h1, h2, h3, by rw [h1, h2]; norm_num⟩

/-- C9 counterexample: `addPoints` accepts any signed delta, and its bronze
branch computes `Math.round((newLifetimePoints / 500) * 100)` with only an
upper clamp (`Math.min(tierProgress, 100)`).  Applying a −100 delta to a
customer with lifetime_points 0 stores tier_progress −20, violating
`0 ≤ tier_progress`. -/
theorem addPoints_negative_progress :
    (addPointsUpdate customerC9 (-100) none 0).tier_progress = -20 ∧
      ¬ (0 ≤ (addPointsUpdate customerC9 (-100) none 0).tier_progress) := by
  have hjs : jsRound ((-20 : ℚ)) = -20 := jsRound_eq _ _ (by norm_num) (by norm_num)
  have h : (addPointsUpdate customerC9 (-100) none 0).tier_progress = -20 := by
    norm_num [addPointsUpdate, customerC9, appTierProgress, appTierProgressRaw, hjs]
  exact ⟨h, by rw [h]; norm_num⟩

/-- C9 amended: after any accrual whose resulting lifetime_points is
nonnegative (every state reachable by accruals alone, since lifetime_points
starts at the 100-point welcome bonus and accruals are positive), the stored
tier_progress satisfies 0 ≤ tier_progress ≤ 100; the upper bound holds for
every signed delta, the lower bound needs the resulting lifetime_points to be
nonnegative (see the counterexample). -/
theorem addPoints_progress_bounds (c : Customer) (points : ℤ) (amountSpent : Option ℤ)
    (now : Nat) (h : 0 ≤ c.lifetime_points + points) :
    0 ≤ (addPointsUpdate c points amountSpent now).tier_progress ∧
      (addPointsUpdate c points amountSpent now).tier_progress ≤ 100 := by
  have htp : (addPointsUpdate c points amountSpent now).tier_progress
      = appTierProgress (c.lifetime_points + points) := rfl
  rw [htp]
  unfold appTierProgress
  exact ⟨le_min (appTierProgressRaw_nonneg h) (by norm_num), min_le_right _ _⟩

/-- Witness for the amended C9 bound at a concrete accrual: customer at
lifetime_points 0 accrues +200 points with a 30-unit spend. -/
theorem addPoints_progress_bounds_witness :
    0 ≤ (addPointsUpdate customerC9 200 (some 30) 5).tier_progress ∧
      (addPointsUpdate customerC9 200 (some 30) 5).tier_progress ≤ 100 :=
  addPoints_progress_bounds customerC9 200 (some 30) 5 (by norm_num [customerC9])

theorem find?_after_chargeCustomer (customerId restaurantId : String) (v : ℤ)
    (l : List Customer) (c : Customer)
    (h : l.find? (fun x => decide (x.id = customerId ∧ x.restaurant_id = restaurantId))
      = some c) :
    (chargeCustomer customerId restaurantId v l).find?
        (fun x => decide (x.id = customerId ∧ x.restaurant_id = restaurantId)) =
      some { c with total_points := v } := by
  have hc2 : c.id = customerId ∧ c.restaurant_id = restaurantId := by
    simpa using List.find?_some h
  unfold chargeCustomer
  rw [List.find?_map]
  have hp : (fun x : Customer => decide (x.id = customerId ∧ x.restaurant_id = restaurantId)) ∘
      (fun c : Customer =>
        if decide (c.id = customerId ∧ c.restaurant_id = restaurantId) then
          { c with total_points := v } else c) =
      fun x : Customer => decide (x.id = customerId ∧ x.restaurant_id = restaurantId) := by
    funext x
    by_cases hx : x.id = customerId ∧ x.restaurant_id = restaurantId
    · simp [hx]
    · have hcond : ¬(decide (x.id = customerId ∧ x.restaurant_id = restaurantId) = true) := by
        simp only [decide_eq_true_eq]
        exact hx
      simp only [Function.comp_apply, if_neg hcond]
  rw [hp, h]
  simp [hc2.1, hc2.2]

theorem find?_after_bumpRewardCount (rewardId restaurantId : String) (v : ℤ)
    (l : List Reward) (r : Reward)
    (h : l.find? (fun x => decide (x.id = rewardId ∧ x.restaurant_id = restaurantId))
      = some r) :
    (bumpRewardCount rewardId restaurantId v l).find?
        (fun x => decide (x.id = rewardId ∧ x.restaurant_id = restaurantId)) =
      some { r with total_redeemed := v } := by
  have hr2 : r.id = rewardId ∧ r.restaurant_id = restaurantId := by
    simpa using List.find?_some h
  unfold bumpRewardCount
  rw [List.find?_map]
  have hp : (fun x : Reward => decide (x.id = rewardId ∧ x.restaurant_id = restaurantId)) ∘
      (fun r : Reward =>
        if decide (r.id = rewardId ∧ r.restaurant_id = restaurantId) then
          { r with total_redeemed := v } else r) =
      fun x : Reward => decide (x.id = rewardId ∧ x.restaurant_id = restaurantId) := by
    funext x
    by_cases hx : x.id = rewardId ∧ x.restaurant_id = restaurantId
    · simp [hx]
    · have hcond : ¬(decide (x.id = rewardId ∧ x.restaurant_id = restaurantId) = true) := by
        simp only [decide_eq_true_eq]
        exact hx
      simp only [Function.comp_apply, if_neg hcond]
  rw [hp, h]
  simp [hr2.1, hr2.2]

/-- C2: when the customer and reward exist in the acting tenant and the
points, tier and capacity preconditions hold, `redeemReward` returns the
pending redemption row for exactly `points_required` points, appends exactly
that row to the redemptions table, stores the customer's balance decremented
by exactly `points_required`, stores the reward's counter incremented by
exactly one, and appends one informational notification. -/
theorem redeemReward_success_effects (restaurantId customerId rewardId : String) (s : Store)
    (customer : Customer) (reward : Reward)
    (hc : findCustomer s restaurantId customerId = some customer)
    (hr : findReward s restaurantId rewardId = some reward)
    (hpts : reward.points_required ≤ customer.total_points)
    (htier : tierOrder reward.min_tier ≤ tierOrder customer.current_tier)
    (hav : availabilityBlocked reward = false) :
    (redeemReward restaurantId customerId rewardId s).2 =
        .ok (⟨restaurantId, customerId, rewardId, reward.points_required, "pending"⟩ :
          Redemption) ∧
      (redeemReward restaurantId customerId rewardId s).1.redemptions =
        s.redemptions ++
          [(⟨restaurantId, customerId, rewardId, reward.points_required, "pending"⟩ :
            Redemption)] ∧
      findCustomer (redeemReward restaurantId customerId rewardId s).1 restaurantId customerId
        = some { customer with
            total_points := customer.total_points - reward.points_required } ∧
      findReward (redeemReward restaurantId customerId rewardId s).1 restaurantId rewardId
        = some { reward with total_redeemed := reward.total_redeemed + 1 } ∧
      (redeemReward restaurantId customerId rewardId s).1.notifications =
        s.notifications ++
          [(⟨restaurantId, "Reward Redeemed",
            customer.first_name ++ " " ++ customer.last_name ++ " redeemed " ++ reward.name,
            "info"⟩ : Notification)] := by
  have hred : redeemReward restaurantId customerId rewardId s =
      ({ s with
          redemptions := s.redemptions ++
            [(⟨restaurantId, customerId, rewardId, reward.points_required, "pending"⟩ :
              Redemption)],
          customers := chargeCustomer customerId restaurantId
            (customer.total_points - reward.points_required) s.customers,
          rewards := bumpRewardCount rewardId restaurantId
            (reward.total_redeemed + 1) s.rewards,
          notifications := s.notifications ++
            [(⟨restaurantId, "Reward Redeemed",
              customer.first_name ++ " " ++ customer.last_name ++ " redeemed " ++ reward.name,
              "info"⟩ : Notification)] },
       .ok (⟨restaurantId, customerId, rewardId, reward.points_required, "pending"⟩ :
         Redemption)) := by
    unfold redeemReward
    rw [hc]
    dsimp only
    rw [hr]
    dsimp only
    rw [if_neg (not_lt.2 hpts), if_neg (not_lt.2 htier)]
    rw [if_neg (by rw [hav]; exact Bool.false_ne_true)]
  refine ⟨by rw [hred], by rw [hred], ?_, ?_, by rw [hred]⟩
  · rw [hred]
    exact find?_after_chargeCustomer _ _ _ _ _ hc
  · rw [hred]
    exact find?_after_bumpRewardCount _ _ _ _ _ hr

/-- Concrete scenario from §8 of the spec: a silver customer
(lifetime_points 600, total_points 250) redeems a 200-point min-tier-silver
reward. -/
def customerC2 : Customer :=
  { id := "cust-2", restaurant_id := "acme", first_name := "Sam", last_name := "Chef",
    email := "sam@acme.test", phone := none, total_points := 250, lifetime_points := 600,
    current_tier := .silver, tier_progress := 20, visit_count := 3, total_spent := 120,
    last_visit := none, is_active := true }

def rewardC2 : Reward :=
  { id := "rew-2", restaurant_id := "acme", name := "Free Appetizer", points_required := 200,
    min_tier := .silver, total_available := none, total_redeemed := 0, is_active := true }

def storeC2 : Store :=
  { nextId := 0, customers := [customerC2], rewards := [rewardC2], redemptions := [],
    transactions := [], notifications := [] }

/-- Witness for C2 at the spec's own scenario: redemption succeeds, the
stored balance becomes 50 and the reward's counter becomes 1. -/
theorem redeemReward_success_scenario :
    (redeemReward "acme" "cust-2" "rew-2" storeC2).2 =
        .ok (⟨"acme", "cust-2", "rew-2", rewardC2.points_required, "pending"⟩ : Redemption) ∧
      (redeemReward "acme" "cust-2" "rew-2" storeC2).1.redemptions =
        storeC2.redemptions ++
          [(⟨"acme", "cust-2", "rew-2", rewardC2.points_required, "pending"⟩ : Redemption)] ∧
      findCustomer (redeemReward "acme" "cust-2" "rew-2" storeC2).1 "acme" "cust-2"
        = some { customerC2 with
            total_points := customerC2.total_points - rewardC2.points_required } ∧
      findReward (redeemReward "acme" "cust-2" "rew-2" storeC2).1 "acme" "rew-2"
        = some { rewardC2 with total_redeemed := rewardC2.total_redeemed + 1 } ∧
      (redeemReward "acme" "cust-2" "rew-2" storeC2).1.notifications =
        storeC2.notifications ++
          [(⟨"acme", "Reward Redeemed",
            customerC2.first_name ++ " " ++ customerC2.last_name ++ " redeemed "
              ++ rewardC2.name, "info"⟩ : Notification)] :=
  redeemReward_success_effects "acme" "cust-2" "rew-2" storeC2 customerC2 rewardC2
    (by rfl) (by rfl) (by norm_num [customerC2, rewardC2])
    (by norm_num [customerC2, rewardC2, tierOrder]) (by rfl)

/-- Concrete input for the C3 counterexample: the customer holds 100 points,
the reward requires 200 (and its tier and capacity checks would also fail,
showing insufficiency is reported first). -/
def customerC3 : Customer :=
  { id := "cust-3", restaurant_id := "acme", first_name := "Pat", last_name := "Guest",
    email := "pat@acme.test", phone := none, total_points := 100, lifetime_points := 100,
    current_tier := .bronze, tier_progress := 20, visit_count := 0, total_spent := 0,
    last_visit := none, is_active := true }

def rewardC3 : Reward :=
  { id := "rew-3", restaurant_id := "acme", name := "VIP Night", points_required := 200,
    min_tier := .gold, total_available := some 1, total_redeemed := 5, is_active := true }

def storeC3 : Store :=
  { nextId := 0, customers := [customerC3], rewards := [rewardC3], redemptions := [],
    transactions := [], notifications := [] }

/-- C3 counterexample: with 100 points against a 200-point reward the error is
the insufficient-points one, but its message is the fixed string
"Insufficient points": it contains no digit at all, so it cannot include the
shortfall amount (required − available = 100) the claim asserts. -/
theorem insufficient_message_no_shortfall :
    (redeemReward "acme" "cust-3" "rew-3" storeC3).2 = .error .insufficientPoints ∧
      errorMessage .insufficientPoints = "Insufficient points" ∧
      ((errorMessage .insufficientPoints).toList.all fun ch => !ch.isDigit) = true :=
  ⟨by rfl, rfl, by decide⟩

/-- C3 amended: `redeemReward` checks its preconditions in the fixed source
order — customer lookup, reward lookup, points, tier, capacity — and the
first failing check determines the error; the tier error names the required
tier, but the insufficient-points message is the fixed string
"Insufficient points" without the shortfall amount. -/
theorem redeemReward_check_order (restaurantId customerId rewardId : String) (s : Store) :
    (redeemReward restaurantId customerId rewardId s).2 =
      (match findCustomer s restaurantId customerId, findReward s restaurantId rewardId with
       | none, _ => .error .customerNotFound
       | some _, none => .error .rewardNotFound
       | some customer, some reward =>
         if customer.total_points < reward.points_required then .error .insufficientPoints
         else if tierOrder customer.current_tier < tierOrder reward.min_tier then
           .error (.tierTooLow reward.min_tier)
         else if availabilityBlocked reward then .error .unavailable
         else .ok (⟨restaurantId, customerId, rewardId, reward.points_required, "pending"⟩ :
           Redemption)) ∧
    errorMessage .insufficientPoints = "Insufficient points" ∧
    ∀ t, errorMessage (.tierTooLow t) = "Requires " ++ tierName t ++ " tier or higher" := by
  refine ⟨?_, rfl, fun t => rfl⟩
  unfold redeemReward
  cases hc : findCustomer s restaurantId customerId with
  | none => rfl
  | some customer =>
    cases hr : findReward s restaurantId rewardId with
    | none => rfl
    | some reward =>
      by_cases h1 : customer.total_points < reward.points_required
      · simp [h1]
      · by_cases h2 : tierOrder customer.current_tier < tierOrder reward.min_tier
        · simp [h1, h2]
        · by_cases h3 : availabilityBlocked reward
          · simp [h1, h2, h3]
          · simp [h1, h2, h3]

/-- C4: whenever any precondition fails after the two lookups succeed,
`redeemReward` returns an error and the whole store — customers, rewards,
redemptions, notifications — is exactly the input store. -/
theorem redeemReward_reject_no_state_change (restaurantId customerId rewardId : String)
    (s : Store) (customer : Customer) (reward : Reward)
    (hc : findCustomer s restaurantId customerId = some customer)
    (hr : findReward s restaurantId rewardId = some reward)
    (hfail : customer.total_points < reward.points_required ∨
      tierOrder customer.current_tier < tierOrder reward.min_tier ∨
      availabilityBlocked reward = true) :
    ∃ e, redeemReward restaurantId customerId rewardId s = (s, .error e) := by
  unfold redeemReward
  rw [hc]
  dsimp only
  rw [hr]
  dsimp only
  rcases hfail with h | h | h
  · exact ⟨_, by rw [if_pos h]⟩
  · by_cases h1 : customer.total_points < reward.points_required
    · exact ⟨_, by rw [if_pos h1]⟩
    · exact ⟨_, by rw [if_neg h1, if_pos h]⟩
  · by_cases h1 : customer.total_points < reward.points_required
    · exact ⟨_, by rw [if_pos h1]⟩
    · by_cases h2 : tierOrder customer.current_tier < tierOrder reward.min_tier
      · exact ⟨_, by rw [if_neg h1, if_pos h2]⟩
      · exact ⟨_, by rw [if_neg h1, if_neg h2, if_pos h]⟩

/-- Spec §8 scenario for the C4 witness: 250 points, tier bronze, reward
requires 200 points and silver tier — rejected on the tier check. -/
def customerC4 : Customer :=
  { id := "cust-4", restaurant_id := "acme", first_name := "Jo", last_name := "Diner",
    email := "jo@acme.test", phone := none, total_points := 250, lifetime_points := 250,
    current_tier := .bronze, tier_progress := 50, visit_count := 1, total_spent := 40,
    last_visit := none, is_active := true }

def rewardC4 : Reward :=
  { id := "rew-4", restaurant_id := "acme", name := "Free Dessert", points_required := 200,
    min_tier := .silver, total_available := some 10, total_redeemed := 0, is_active := true }

def storeC4 : Store :=
  { nextId := 0, customers := [customerC4], rewards := [rewardC4], redemptions := [],
    transactions := [], notifications := [] }

/-- Witness for C4: the tier rejection leaves the store untouched. -/
theorem redeemReward_tier_reject_scenario :
    ∃ e, redeemReward "acme" "cust-4" "rew-4" storeC4 = (storeC4, .error e) :=
  redeemReward_reject_no_state_change "acme" "cust-4" "rew-4" storeC4 customerC4 rewardC4
    (by rfl) (by rfl) (Or.inr (Or.inl (by decide)))

/-- C10: after the lookups, points and tier checks pass, the unavailable
error is raised exactly when `total_available` is a nonzero value not above
`total_redeemed`; a null or zero `total_available` (JavaScript-falsy) never
raises it, whatever `total_redeemed` is. -/
theorem redeemReward_capacity_iff (restaurantId customerId rewardId : String) (s : Store)
    (customer : Customer) (reward : Reward)
    (hc : findCustomer s restaurantId customerId = some customer)
    (hr : findReward s restaurantId rewardId = some reward)
    (hpts : reward.points_required ≤ customer.total_points)
    (htier : tierOrder reward.min_tier ≤ tierOrder customer.current_tier) :
    (redeemReward restaurantId customerId rewardId s).2 = .error .unavailable ↔
      ∃ n, reward.total_available = some n ∧ n ≠ 0 ∧ n ≤ reward.total_redeemed := by
  have hchar : availabilityBlocked reward = true ↔
      ∃ n, reward.total_available = some n ∧ n ≠ 0 ∧ n ≤ reward.total_redeemed := by
    unfold availabilityBlocked
    cases hA : reward.total_available with
    | none => simp
    | some n => simp
  unfold redeemReward
  rw [hc]
  dsimp only
  rw [hr]
  dsimp only
  rw [if_neg (not_lt.2 hpts), if_neg (not_lt.2 htier)]
  by_cases h : availabilityBlocked reward = true
  · rw [if_pos h]
    simpa using hchar.1 h
  · rw [if_neg h]
    constructor
    · intro hcontra
      simp at hcontra
    · intro hex
      exact absurd (hchar.2 hex) h

/-- Concrete input for the C10 witness: `total_available` is zero and
`total_redeemed` is already 7, yet redemption is not blocked — zero capacity
behaves as unlimited, not as exhausted. -/
def customerC10 : Customer :=
  { id := "cust-10", restaurant_id := "acme", first_name := "Max", last_name := "Gold",
    email := "max@acme.test", phone := none, total_points := 500, lifetime_points := 1200,
    current_tier := .gold, tier_progress := 100, visit_count := 9, total_spent := 700,
    last_visit := none, is_active := true }

def rewardC10 : Reward :=
  { id := "rew-10", restaurant_id := "acme", name := "Coffee", points_required := 100,
    min_tier := .bronze, total_available := some 0, total_redeemed := 7, is_active := true }

def storeC10 : Store :=
  { nextId := 0, customers := [customerC10], rewards := [rewardC10], redemptions := [],
    transactions := [], notifications := [] }

/-- Witness for C10 at a zero-capacity reward. -/
theorem redeemReward_capacity_zero_unlimited :
    (redeemReward "acme" "cust-10" "rew-10" storeC10).2 = .error .unavailable ↔
      ∃ n, rewardC10.total_available = some n ∧ n ≠ 0 ∧ n ≤ rewardC10.total_redeemed :=
  redeemReward_capacity_iff "acme" "cust-10" "rew-10" storeC10 customerC10 rewardC10
    (by rfl) (by rfl) (by decide) (by decide)

/-- JavaScript `a || b` on an optional string: null, undefined and the empty
string fall back to the default. -/
def orElseStr (v : Option String) (d : String) : String :=
  match v with
  | some x => if x = "" then d else x
  | none => d

/-- JavaScript truthiness of an optional string (null, undefined and the
empty string are falsy). -/
def strTruthy (v : Option String) : Bool :=
  match v with
  | some x => decide (x ≠ "")
  | none => false

/-- `CreateCustomerData` from `customerService.ts`; `restaurant_id` is the
caller-supplied tenant id used for direct linking from the wallet URL. -/
structure CreateCustomerData where
  first_name : String
  last_name : String
  email : String
  phone : Option String
  date_of_birth : Option String
  restaurant_id : Option String
deriving DecidableEq, Repr

inductive CreateCustomerError
  | duplicateCustomer
deriving DecidableEq, Repr

/-- `CustomerService.checkCustomerExists`: an active customer of the target
restaurant matching by email — or by email or phone when a nonblank phone is
supplied (`if (phone && phone.trim() !== ...)`). -/
def checkCustomerExists (email : String) (phone : Option String) (restaurantId : String)
    (s : Store) : Option Customer :=
  s.customers.find? fun c =>
    decide (c.restaurant_id = restaurantId) && c.is_active &&
      (match phone with
       | some p =>
         if p.trim = "" then decide (c.email = email)
         else decide (c.email = email) || decide (c.phone = some p)
       | none => decide (c.email = email))

/-- `CustomerService.createCustomer`: the scoping tenant id is
`customerData.restaurant_id || getCurrentRestaurantId()` — the caller-supplied
restaurant id wins whenever present and nonempty; `sessionRestaurantId`
stands for the id resolved from the session's staff row.  On success the new
customer is inserted with the 100-point welcome bonus, a signup transaction
is appended, and — only when no caller restaurant id was supplied (the
manager-dashboard path, `if (!customerData.restaurant_id)`) — a signup
notification. -/
def createCustomer (d : CreateCustomerData) (sessionRestaurantId : String) (s : Store) :
    Store × Except CreateCustomerError Customer :=
  let restaurantId := orElseStr d.restaurant_id sessionRestaurantId
  match checkCustomerExists d.email d.phone restaurantId s with
  | some _ => (s, .error .duplicateCustomer)
  | none =>
    let customer : Customer :=
      { id := toString s.nextId, restaurant_id := restaurantId, first_name := d.first_name,
        last_name := d.last_name, email := d.email, phone := d.phone, total_points := 100,
        lifetime_points := 100, current_tier := .bronze, tier_progress := 0,
        visit_count := 0, total_spent := 0, last_visit := none, is_active := true }
    let tx : TransactionRow :=
      { restaurant_id := restaurantId, customer_id := customer.id, type := "signup",
        points := 100, amount_spent := none,
        description := "Welcome bonus for joining our loyalty program" }
    ({ s with
        nextId := s.nextId + 1,
        customers := s.customers ++ [customer],
        transactions := s.transactions ++ [tx],
        notifications :=
          if strTruthy d.restaurant_id then s.notifications
          else s.notifications ++
            [(⟨restaurantId, "New Customer Signup",
              d.first_name ++ " " ++ d.last_name ++ " has joined your loyalty program",
              "success"⟩ : Notification)] },
     .ok customer)

/-- `CustomerService.getRestaurantIdFromURL`: reads the `restaurant` query
parameter of the wallet URL verbatim. -/
def getRestaurantIdFromURL (queryParams : List (String × String)) : Option String :=
  (queryParams.find? fun kv => decide (kv.1 = "restaurant")).map Prod.snd

/-- Caller-supplied data for the C8 counterexample: the wallet flow passes
the URL's `restaurant` parameter as `restaurant_id`. -/
def dC8 : CreateCustomerData :=
  { first_name := "Eve", last_name := "Visitor", email := "eve@other.test", phone := none,
    date_of_birth := none, restaurant_id := some "tenant-B" }

def storeC8 : Store :=
  { nextId := 0, customers := [], rewards := [], redemptions := [], transactions := [],
    notifications := [] }

/-- C8 counterexample: with the session resolved to tenant-A, a caller-supplied
restaurant id (exactly what the wallet URL's `restaurant` parameter provides)
scopes the created customer to tenant-B — the scoping key is not derived
exclusively from the session's membership. -/
theorem createCustomer_caller_tenant_scope :
    getRestaurantIdFromURL [("restaurant", "tenant-B")] = some "tenant-B" ∧
      ((createCustomer dC8 "tenant-A" storeC8).2.toOption.map Customer.restaurant_id)
        = some "tenant-B" ∧
      "tenant-B" ≠ "tenant-A" :=
  ⟨by rfl, by rfl, by decide⟩

/-- C8 amended: the tenant id scoping `createCustomer` is the caller-supplied
`restaurant_id` whenever it is present and nonempty (e.g. sourced from the
wallet URL via `getRestaurantIdFromURL`); only in its absence is the scope the
session membership's tenant. -/
theorem createCustomer_scope_key (d : CreateCustomerData) (sessionRestaurantId : String)
    (s sOut : Store) (c : Customer)
    (h : createCustomer d sessionRestaurantId s = (sOut, .ok c)) :
    c.restaurant_id = orElseStr d.restaurant_id sessionRestaurantId ∧
      (d.restaurant_id = none → c.restaurant_id = sessionRestaurantId) ∧
      ∀ r, d.restaurant_id = some r → r ≠ "" → c.restaurant_id = r := by
  unfold createCustomer at h
  dsimp only at h
  cases hchk : checkCustomerExists d.email d.phone
      (orElseStr d.restaurant_id sessionRestaurantId) s with
  | some c0 =>
    rw [hchk] at h
    exact absurd (congrArg Prod.snd h) (by simp)
  | none =>
    rw [hchk] at h
    have h2 := congrArg Prod.snd h
    simp only [Except.ok.injEq] at h2
    have h3 : c.restaurant_id = orElseStr d.restaurant_id sessionRestaurantId := by
      rw [← h2]
    refine ⟨h3, fun hnone => ?_, fun r hr hne => ?_⟩
    · rw [h3, hnone]
      rfl
    · rw [h3, hr]
      simp [orElseStr, hne]

/-- Data and expected row for the C8 witness (no caller restaurant id: the
session tenant scopes the insert). -/
def dC8w : CreateCustomerData :=
  { first_name := "Ana", last_name := "Member", email := "ana@acme.test", phone := none,
    date_of_birth := none, restaurant_id := none }

def custC8w : Customer :=
  { id := "0", restaurant_id := "tenant-A", first_name := "Ana", last_name := "Member",
    email := "ana@acme.test", phone := none, total_points := 100, lifetime_points := 100,
    current_tier := .bronze, tier_progress := 0, visit_count := 0, total_spent := 0,
    last_visit := none, is_active := true }

/-- Witness for the amended C8 at a concrete dashboard-path creation. -/
theorem createCustomer_scope_key_witness :
    custC8w.restaurant_id = orElseStr dC8w.restaurant_id "tenant-A" ∧
      (dC8w.restaurant_id = none → custC8w.restaurant_id = "tenant-A") ∧
      ∀ r, dC8w.restaurant_id = some r → r ≠ "" → custC8w.restaurant_id = r :=
  createCustomer_scope_key dC8w "tenant-A" storeC8 _ custC8w (by rfl)

end Loyalty

namespace Auth

open Loyalty

/-- Restaurant settings as `createRestaurantAndStaff` inserts them. -/
structure Settings where
  currency : String
  timezone : String
  points_per_dollar : ℤ
  welcome_bonus : ℤ
  referral_bonus : ℤ
deriving DecidableEq, Repr

/-- A `restaurants` row. -/
structure Restaurant where
  id : Nat
  name : String
  email : Option String
  subscription_plan : String
  settings : Settings
deriving DecidableEq, Repr

/-- A `staff` row: the membership linking an authenticated identity
(`user_id`, nullable until linked) to its restaurant. -/
structure Staff where
  id : Nat
  restaurant_id : Nat
  user_id : Option String
  email : Option String
  first_name : String
  last_name : String
  role : String
  permissions : List String
  is_active : Bool
  last_login : Option Nat
deriving DecidableEq, Repr

/-- A `loyalty_tiers` row as the bootstrap inserts it. -/
structure LoyaltyTier where
  restaurant_id : Nat
  tier : Tier
  name : String
  min_points : ℤ
  benefits : List String
  color : String
deriving DecidableEq, Repr

/-- A default `rewards` row as the bootstrap inserts it. -/
structure RewardSeed where
  restaurant_id : Nat
  name : String
  description : String
  points_required : ℤ
  category : String
  min_tier : Tier
deriving DecidableEq, Repr

/-- A `notifications` row of the bootstrap flow. -/
structure AuthNotification where
  restaurant_id : Nat
  title : String
  message : String
  type : String
deriving DecidableEq, Repr

/-- The authenticated identity: id, email, and the signup metadata
(`user_metadata.firstName` and friends). -/
structure AuthUser where
  id : String
  email : Option String
  meta_first_name : Option String
  meta_last_name : Option String
  meta_restaurant_name : Option String
deriving DecidableEq, Repr

/-- The tables the auth flow reads and writes; `nextId` is the row-id
generator. -/
structure AuthStore where
  nextId : Nat
  restaurants : List Restaurant
  staff : List Staff
  loyalty_tiers : List LoyaltyTier
  rewards : List RewardSeed
  notifications : List AuthNotification
deriving DecidableEq, Repr

/-- `.maybeSingle()`: none when no row matches, the row when exactly one
does, a query error when several do. -/
def maybeSingle {α : Type} (p : α → Bool) (l : List α) : Except Unit (Option α) :=
  match l.filter p with
  | [] => .ok none
  | [a] => .ok (some a)
  | _ => .error ()

/-- The membership-linking update in `fetchStaffData`:
`update({user_id, last_login, updated_at}).eq('email', user.email)` —
scoped by email alone. -/
def linkStaffUpdate (em uid : String) (now : Nat) (l : List Staff) : List Staff :=
  l.map fun x =>
    if decide (x.email = some em) then { x with user_id := some uid, last_login := some now }
    else x

/-- The unrestricted permission set the bootstrap grants the manager. -/
def defaultPermissions : List String :=
  ["manage_customers", "manage_rewards", "view_analytics", "manage_staff",
   "manage_settings", "export_data", "manage_billing"]

/-- `createRestaurantAndStaff`: provision a restaurant with default settings,
the three default tiers, the three starter rewards, a manager staff row
linked to the identity, and the welcome notification.  Name derivation
follows the source's JavaScript `||` chains (empty strings are falsy). -/
def createRestaurantAndStaff (u : AuthUser) (now : Nat) (s : AuthStore) :
    Option Staff × AuthStore :=
  let emailName := orElseStr (u.email.map fun em => (em.splitOn "@").headD "") "Restaurant"
  let firstName := orElseStr u.meta_first_name emailName
  let lastName := orElseStr u.meta_last_name "Owner"
  let restaurantName := orElseStr u.meta_restaurant_name (firstName ++ "\x27s Restaurant")
  let rid := s.nextId
  let restaurant : Restaurant :=
    { id := rid, name := restaurantName, email := u.email, subscription_plan := "basic",
      settings := ⟨"USD", "America/New_York", 1, 100, 200⟩ }
  let tiers : List LoyaltyTier :=
    [⟨rid, .bronze, "Bronze Member", 0, ["5% discount", "Birthday reward"], "#CD7F32"⟩,
     ⟨rid, .silver, "Silver Member", 500,
       ["10% discount", "Free appetizer monthly", "Priority support"], "#C0C0C0"⟩,
     ⟨rid, .gold, "Gold Member", 1000,
       ["15% discount", "Free dessert weekly", "VIP access", "Premium support"], "#FFD700"⟩]
  let defaultRewards : List RewardSeed :=
    [⟨rid, "Free Appetizer", "Complimentary appetizer of your choice", 200, "food", .bronze⟩,
     ⟨rid, "Free Dessert", "Complimentary dessert with any main course", 300, "food",
       .silver⟩,
     ⟨rid, "VIP Dining Experience", "Priority seating and complimentary wine pairing", 1000,
       "experience", .gold⟩]
  let staffRecord : Staff :=
    { id := rid + 1, restaurant_id := rid, user_id := some u.id, email := u.email,
      first_name := firstName, last_name := lastName, role := "manager",
      permissions := defaultPermissions, is_active := true, last_login := some now }
  let notif : AuthNotification :=
    ⟨rid, "Welcome to Your Restaurant Dashboard!",
      "Your loyalty program is now set up and ready to use. Start by sharing your QR code with customers!",
      "success"⟩
  (some staffRecord,
   { nextId := rid + 2,
     restaurants := s.restaurants ++ [restaurant],
     staff := s.staff ++ [staffRecord],
     loyalty_tiers := s.loyalty_tiers ++ tiers,
     rewards := s.rewards ++ defaultRewards,
     notifications := s.notifications ++ [notif] })

/-- `fetchStaffData`: resolve the authenticated identity to a staff row —
lookup by user id, then by email (linking when unlinked, adopting the row
as-is when already linked), else provision a restaurant and staff.  A
multiple-row lookup result is a query error: after the user-id lookup the
resolver yields no staff, after the email lookup it falls through to
provisioning, exactly as the source's error handling does. -/
def fetchStaffData (u : AuthUser) (now : Nat) (s : AuthStore) : Option Staff × AuthStore :=
  match maybeSingle (fun st => decide (st.user_id = some u.id)) s.staff with
  | .error _ => (none, s)
  | .ok (some st) => (some st, s)
  | .ok none =>
    match u.email with
    | none => createRestaurantAndStaff u now s
    | some em =>
      match maybeSingle (fun st => decide (st.email = some em)) s.staff with
      | .error _ => createRestaurantAndStaff u now s
      | .ok (some st) =>
        if st.user_id = none then
          (some { st with user_id := some u.id, last_login := some now },
           { s with staff := linkStaffUpdate em u.id now s.staff })
        else (some st, s)
      | .ok none => createRestaurantAndStaff u now s

theorem linkStaffUpdate_id (em uid : String) (now : Nat) (l : List Staff)
    (h : l.filter (fun x => decide (x.email = some em)) = []) :
    linkStaffUpdate em uid now l = l := by
  unfold linkStaffUpdate
  conv_rhs => rw [← List.map_id l]
  apply List.map_congr_left
  intro a ha
  have hne : ¬(a.email = some em) := by
    have := List.filter_eq_nil_iff.1 h a ha
    simpa using this
  simp [hne]

theorem filter_uid_linkStaffUpdate (em uid : String) (now : Nat) (l : List Staff) (st : Staff)
    (hEmail : l.filter (fun x => decide (x.email = some em)) = [st])
    (hUid : l.filter (fun x => decide (x.user_id = some uid)) = []) :
    (linkStaffUpdate em uid now l).filter (fun x => decide (x.user_id = some uid)) =
      [{ st with user_id := some uid, last_login := some now }] := by
  induction l with
  | nil => exact absurd hEmail (by simp)
  | cons a t ih =>
    rw [List.filter_cons] at hEmail hUid
    have hUid_split : ¬(decide (a.user_id = some uid) = true) ∧
        t.filter (fun x => decide (x.user_id = some uid)) = [] := by
      by_cases hcond : decide (a.user_id = some uid) = true
      · rw [if_pos hcond] at hUid
        exact absurd hUid (List.cons_ne_nil _ _)
      · rw [if_neg hcond] at hUid
        exact ⟨hcond, hUid⟩
    by_cases ha : a.email = some em
    · rw [if_pos (by simp [ha])] at hEmail
      have hcons := List.cons.injEq a (t.filter fun x => decide (x.email = some em)) st []
      rw [hcons] at hEmail
      obtain ⟨rfl, hEt⟩ := hEmail
      have hstep : linkStaffUpdate em uid now (a :: t) =
          { a with user_id := some uid, last_login := some now } :: linkStaffUpdate em uid now t := by
        unfold linkStaffUpdate
        rw [List.map_cons, if_pos (by simp [ha])]
      rw [hstep, linkStaffUpdate_id em uid now t hEt, List.filter_cons,
        if_pos (by simp), hUid_split.2]
    · rw [if_neg (by simp [ha])] at hEmail
      have hstep : linkStaffUpdate em uid now (a :: t) =
          a :: linkStaffUpdate em uid now t := by
        unfold linkStaffUpdate
        rw [List.map_cons, if_neg (by simp [ha])]
      rw [hstep, List.filter_cons, if_neg hUid_split.1]
      exact ih hEmail hUid_split.2

theorem createRestaurantAndStaff_spec (u : AuthUser) (t : Nat) (s : AuthStore) :
    ∃ stNew s1, createRestaurantAndStaff u t s = (some stNew, s1) ∧
      stNew.user_id = some u.id ∧ s1.staff = s.staff ++ [stNew] ∧
      s1.restaurants.length = s.restaurants.length + 1 :=
  ⟨_, _, rfl, rfl, rfl, by simp⟩

theorem fetchStaffData_after_found (u : AuthUser) (t : Nat) (s1 : AuthStore) (stNew : Staff)
    (h : s1.staff.filter (fun st => decide (st.user_id = some u.id)) = [stNew]) :
    fetchStaffData u t s1 = (some stNew, s1) := by
  unfold fetchStaffData maybeSingle
  rw [h]

theorem fetchStaffData_create_glue (u : AuthUser) (t1 t2 : Nat) (s : AuthStore)
    (hF : s.staff.filter (fun st => decide (st.user_id = some u.id)) = [])
    (h1 : fetchStaffData u t1 s = createRestaurantAndStaff u t1 s) :
    fetchStaffData u t2 (fetchStaffData u t1 s).2 = fetchStaffData u t1 s := by
  obtain ⟨stNew, s1, hcr, hstuid, hstaff, -⟩ := createRestaurantAndStaff_spec u t1 s
  rw [h1, hcr]
  have hfind : s1.staff.filter (fun st => decide (st.user_id = some u.id)) = [stNew] := by
    rw [hstaff, List.filter_append, hF]
    simp [hstuid]
  exact fetchStaffData_after_found u t2 s1 stNew hfind

/-- C5: identity resolution is idempotent.  Whatever the store state, running
`fetchStaffData` a second time — at any later instant — returns the very same
membership result and leaves the store exactly as the first run left it: in
particular the second run creates no additional restaurant or staff rows. -/
theorem fetchStaffData_idempotent (u : AuthUser) (t1 t2 : Nat) (s : AuthStore) :
    fetchStaffData u t2 (fetchStaffData u t1 s).2 = fetchStaffData u t1 s := by
  cases hF : s.staff.filter (fun st => decide (st.user_id = some u.id)) with
  | cons a l =>
    cases l with
    | nil =>
      have h1 : fetchStaffData u t1 s = (some a, s) := by
        unfold fetchStaffData maybeSingle
        rw [hF]
      have h2 : fetchStaffData u t2 s = (some a, s) := by
        unfold fetchStaffData maybeSingle
        rw [hF]
      rw [h1]
      exact h2
    | cons b m =>
      have h1 : fetchStaffData u t1 s = (none, s) := by
        unfold fetchStaffData maybeSingle
        rw [hF]
      have h2 : fetchStaffData u t2 s = (none, s) := by
        unfold fetchStaffData maybeSingle
        rw [hF]
      rw [h1]
      exact h2
  | nil =>
    cases hEm : u.email with
    | none =>
      apply fetchStaffData_create_glue u t1 t2 s hF
      unfold fetchStaffData maybeSingle
      rw [hF, hEm]
    | some em =>
      cases hE : s.staff.filter (fun st => decide (st.email = some em)) with
      | nil =>
        apply fetchStaffData_create_glue u t1 t2 s hF
        unfold fetchStaffData maybeSingle
        rw [hF, hEm]
        dsimp only
        rw [hE]
      | cons a l =>
        cases l with
        | cons b m =>
          apply fetchStaffData_create_glue u t1 t2 s hF
          unfold fetchStaffData maybeSingle
          rw [hF, hEm]
          dsimp only
          rw [hE]
        | nil =>
          by_cases hLink : a.user_id = none
          · have h1 : fetchStaffData u t1 s =
                (some { a with user_id := some u.id, last_login := some t1 },
                 { s with staff := linkStaffUpdate em u.id t1 s.staff }) := by
              unfold fetchStaffData maybeSingle
              rw [hF, hEm]
              dsimp only
              rw [hE]
              dsimp only
              rw [if_pos hLink]
            have hfind : (linkStaffUpdate em u.id t1 s.staff).filter
                (fun st => decide (st.user_id = some u.id)) =
                [{ a with user_id := some u.id, last_login := some t1 }] :=
              filter_uid_linkStaffUpdate em u.id t1 s.staff a hE hF
            rw [h1]
            exact fetchStaffData_after_found u t2
              { s with staff := linkStaffUpdate em u.id t1 s.staff } _ hfind
          · have h1 : fetchStaffData u t1 s = (some a, s) := by
              unfold fetchStaffData maybeSingle
              rw [hF, hEm]
              dsimp only
              rw [hE]
              dsimp only
              rw [if_neg hLink]
            have h2 : fetchStaffData u t2 s = (some a, s) := by
              unfold fetchStaffData maybeSingle
              rw [hF, hEm]
              dsimp only
              rw [hE]
              dsimp only
              rw [if_neg hLink]
            rw [h1]
            exact h2

/-- Concrete conflicting state for C6: the staff row carries the identity id
`user-2`; the session authenticates as `user-1` with the same email. -/
def staffC6 : Staff :=
  { id := 7, restaurant_id := 3, user_id := some "user-2", email := some "owner@acme.test",
    first_name := "Ola", last_name := "Owner", role := "manager", permissions := [],
    is_active := true, last_login := none }

def storeC6 : AuthStore :=
  { nextId := 10, restaurants := [], staff := [staffC6], loyalty_tiers := [], rewards := [],
    notifications := [] }

def userC6 : AuthUser :=
  { id := "user-1", email := some "owner@acme.test", meta_first_name := none,
    meta_last_name := none, meta_restaurant_name := none }

/-- C6 counterexample: for an identity whose id matches no membership but
whose email matches a membership linked to a different identity id, the
resolver returns that membership (the session keeps it as its staff row) —
it does not surface an authorization failure. -/
theorem email_conflict_returns_membership :
    fetchStaffData userC6 0 storeC6 = (some staffC6, storeC6) ∧
      staffC6.user_id = some "user-2" ∧ userC6.id = "user-1" ∧
      (fetchStaffData userC6 0 storeC6).1 ≠ none := by
  refine ⟨by rfl, rfl, rfl, ?_⟩
  rw [show fetchStaffData userC6 0 storeC6 = (some staffC6, storeC6) from rfl]
  simp

/-- C6 amended: when the identity id matches no membership and the email
matches exactly one membership whose identity id is already set, the resolver
adopts that membership as-is — it returns it unchanged, changes no store
state, and neither links it nor treats the session as unauthenticated. -/
theorem fetchStaffData_email_conflict_adopts (u : AuthUser) (now : Nat) (s : AuthStore)
    (em : String) (st : Staff) (hEm : u.email = some em)
    (hF : s.staff.filter (fun x => decide (x.user_id = some u.id)) = [])
    (hE : s.staff.filter (fun x => decide (x.email = some em)) = [st])
    (hLinked : st.user_id ≠ none) :
    fetchStaffData u now s = (some st, s) := by
  unfold fetchStaffData maybeSingle
  rw [hF, hEm]
  dsimp only
  rw [hE]
  dsimp only
  rw [if_neg hLinked]

/-- Witness for the amended C6 at the concrete conflicting state. -/
theorem fetchStaffData_email_conflict_adopts_witness :
    fetchStaffData userC6 0 storeC6 = (some staffC6, storeC6) :=
  fetchStaffData_email_conflict_adopts userC6 0 storeC6 "owner@acme.test" staffC6
    rfl (by rfl) (by rfl) (by simp [staffC6])

/-- Concrete already-linked staff row for C7. -/
def staffC7 : Staff :=
  { id := 8, restaurant_id := 4, user_id := some "user-9", email := some "chef@bistro.test",
    first_name := "Lee", last_name := "Chef", role := "staff", permissions := [],
    is_active := true, last_login := none }

/-- C7 counterexample: the linking update is scoped by email alone, not by
"identity id is still unset": applied to a membership whose identity id is
already set, it overwrites that id instead of failing harmlessly. -/
theorem linkStaffUpdate_overwrites_linked :
    linkStaffUpdate "chef@bistro.test" "user-1" 5 [staffC7] =
      [(⟨8, 4, some "user-1", some "chef@bistro.test", "Lee", "Chef", "staff", [], true,
        some 5⟩ : Staff)] ∧
      staffC7.user_id = some "user-9" ∧ (some "user-9" : Option String) ≠ some "user-1" :=
  ⟨by rfl, rfl, by decide⟩

/-- C7 amended: the update itself is conditional only on the email, but the
resolver issues it only after reading a membership whose identity id is
unset, so across the whole resolution flow every membership row whose
identity id is already set survives unchanged (no overwrite ever becomes
observable through `fetchStaffData`). -/
theorem fetchStaffData_preserves_linked (u : AuthUser) (now : Nat) (s : AuthStore)
    (x : Staff) (hx : x ∈ s.staff) (hlinked : x.user_id ≠ none) :
    x ∈ (fetchStaffData u now s).2.staff := by
  cases hF : s.staff.filter (fun st => decide (st.user_id = some u.id)) with
  | cons a l =>
    cases l with
    | nil =>
      have h1 : fetchStaffData u now s = (some a, s) := by
        unfold fetchStaffData maybeSingle
        rw [hF]
      rw [h1]
      exact hx
    | cons b m =>
      have h1 : fetchStaffData u now s = (none, s) := by
        unfold fetchStaffData maybeSingle
        rw [hF]
      rw [h1]
      exact hx
  | nil =>
    cases hEm : u.email with
    | none =>
      have h1 : fetchStaffData u now s = createRestaurantAndStaff u now s := by
        unfold fetchStaffData maybeSingle
        rw [hF, hEm]
      obtain ⟨stNew, s1, hcr, -, hstaff, -⟩ := createRestaurantAndStaff_spec u now s
      rw [h1, hcr]
      rw [show (some stNew, s1).2 = s1 from rfl, hstaff]
      exact List.mem_append_left _ hx
    | some em =>
      cases hE : s.staff.filter (fun st => decide (st.email = some em)) with
      | nil =>
        have h1 : fetchStaffData u now s = createRestaurantAndStaff u now s := by
          unfold fetchStaffData maybeSingle
          rw [hF, hEm]
          dsimp only
          rw [hE]
        obtain ⟨stNew, s1, hcr, -, hstaff, -⟩ := createRestaurantAndStaff_spec u now s
        rw [h1, hcr]
        rw [show (some stNew, s1).2 = s1 from rfl, hstaff]
        exact List.mem_append_left _ hx
      | cons a l =>
        cases l with
        | cons b m =>
          have h1 : fetchStaffData u now s = createRestaurantAndStaff u now s := by
            unfold fetchStaffData maybeSingle
            rw [hF, hEm]
            dsimp only
            rw [hE]
          obtain ⟨stNew, s1, hcr, -, hstaff, -⟩ := createRestaurantAndStaff_spec u now s
          rw [h1, hcr]
          rw [show (some stNew, s1).2 = s1 from rfl, hstaff]
          exact List.mem_append_left _ hx
        | nil =>
          by_cases hLink : a.user_id = none
          · have h1 : fetchStaffData u now s =
                (some { a with user_id := some u.id, last_login := some now },
                 { s with staff := linkStaffUpdate em u.id now s.staff }) := by
              unfold fetchStaffData maybeSingle
              rw [hF, hEm]
              dsimp only
              rw [hE]
              dsimp only
              rw [if_pos hLink]
            rw [h1]
            have hxe : ¬(x.email = some em) := by
              intro hcon
              have hmem : x ∈ s.staff.filter (fun st => decide (st.email = some em)) :=
                List.mem_filter.2 ⟨hx, by simp [hcon]⟩
              rw [hE] at hmem
              have hxa : x = a := by simpa using hmem
              exact hlinked (hxa ▸ hLink)
            have hfx : (fun y : Staff =>
                if decide (y.email = some em) then
                  { y with user_id := some u.id, last_login := some now }
                else y) x = x := by
              simp [hxe]
            have hmap := List.mem_map_of_mem (fun y : Staff =>
                if decide (y.email = some em) then
                  { y with user_id := some u.id, last_login := some now }
                else y) hx
            rw [hfx] at hmap
            exact hmap
          · have h1 : fetchStaffData u now s = (some a, s) := by
              unfold fetchStaffData maybeSingle
              rw [hF, hEm]
              dsimp only
              rw [hE]
              dsimp only
              rw [if_neg hLink]
            rw [h1]
            exact hx

/-- Identity and store for the C7 witness: the resolver provisions a fresh
tenant while the unrelated, already-linked membership survives unchanged. -/
def userC7 : AuthUser :=
  { id := "user-1", email := some "new@owner.test", meta_first_name := none,
    meta_last_name := none, meta_restaurant_name := none }

def storeC7 : AuthStore :=
  { nextId := 20, restaurants := [], staff := [staffC7], loyalty_tiers := [], rewards := [],
    notifications := [] }

/-- Witness for the amended C7. -/
theorem fetchStaffData_preserves_linked_witness :
    staffC7 ∈ (fetchStaffData userC7 3 storeC7).2.staff :=
  fetchStaffData_preserves_linked userC7 3 storeC7 staffC7 (by simp [storeC7])
    (by simp [staffC7])

end Auth
